import Mathlib

/-!
Verification development for the voice-interview client
(`interview.js` / `speech.js` / `audio.js` / `ui.js`).

The JavaScript modules are shallowly embedded: module-level mutable
variables become fields of explicit state structures, each event handler
or exported function becomes a pure Lean function from state (plus the
values its collaborators return) to state together with a list of
observable effects, and arbitrary runs of the event loop become folds of
a step function over a list of events.
-/

/-! ### Embedding of `static/js/speech.js` (Transcription Accumulator)

Module globals `isRecognizing`, `recognitionRestartCount`,
`finalTranscript`, `interimTranscript` and the armed/cleared status of
`recognitionTimeout` become the fields of `SpeechState`.  The browser
`SpeechRecognition` handle itself carries no data the handlers read, so
it is not represented; whether `recognition.start()` succeeds or throws
inside `handleRecognitionEnd` is an input `restartOk`. -/

def MAX_RESTART_ATTEMPTS : Nat := 3

structure SpeechState where
  isRecognizing : Bool
  recognitionRestartCount : Nat
  finalTranscript : String
  interimTranscript : String
  timeoutArmed : Bool
  deriving Repr, DecidableEq

def initSpeech : SpeechState :=
  { isRecognizing := false, recognitionRestartCount := 0,
    finalTranscript := "", interimTranscript := "", timeoutArmed := false }

/-- One entry of a `SpeechRecognitionEvent.results` slice. -/
structure RecResultItem where
  isFinal : Bool
  transcript : String
  deriving Repr, DecidableEq

/-- speech.js `handleRecognitionStart`: marks recognition active, resets the
restart counter and both transcripts, and (re)arms the 60 s ceiling timer. -/
def handleRecognitionStart (s : SpeechState) : SpeechState :=
  { s with isRecognizing := true, recognitionRestartCount := 0,
           finalTranscript := "", interimTranscript := "", timeoutArmed := true }

/-- Loop body of speech.js `handleRecognitionResult`: a final segment is
appended to `finalTranscript`, a non-final one to `interimTranscript`. -/
def applyResult (s : SpeechState) (r : RecResultItem) : SpeechState :=
  if r.isFinal then { s with finalTranscript := s.finalTranscript ++ r.transcript }
  else { s with interimTranscript := s.interimTranscript ++ r.transcript }

/-- speech.js `handleRecognitionResult`: clears `interimTranscript`, then
folds the event's result items in order. -/
def handleRecognitionResult (s : SpeechState) (results : List RecResultItem) : SpeechState :=
  results.foldl applyResult { s with interimTranscript := "" }

/-- speech.js `handleRecognitionError`: every error branch (whatever the
error code) ends with `isRecognizing = false` and the ceiling timer
cleared; transcripts and restart counter are untouched. -/
def handleRecognitionError (s : SpeechState) (_err : String) : SpeechState :=
  { s with isRecognizing := false, timeoutArmed := false }

/-- speech.js `handleRecognitionEnd`: if still nominally recognizing and the
restart counter is below `MAX_RESTART_ATTEMPTS`, increments the counter and
tries `recognition.start()` (`restartOk` says whether that throws); on a
successful restart it returns early, otherwise it falls through to
deactivating and clearing the timer. -/
def handleRecognitionEnd (s : SpeechState) (restartOk : Bool) : SpeechState :=
  if s.isRecognizing && decide (s.recognitionRestartCount < MAX_RESTART_ATTEMPTS) then
    if restartOk then
      { s with recognitionRestartCount := s.recognitionRestartCount + 1 }
    else
      { s with recognitionRestartCount := s.recognitionRestartCount + 1,
               isRecognizing := false, timeoutArmed := false }
  else
    { s with isRecognizing := false, timeoutArmed := false }

/-- speech.js `startRecognition` (synchronous part): if the browser lacks
`SpeechRecognition` support it only reports and returns `false`; otherwise
it detaches the old instance, resets all module state and starts a fresh
instance (its `onstart` arrives later as a separate event). -/
def startRecognition (s : SpeechState) (supported : Bool) : SpeechState × Bool :=
  if supported then
    ({ s with isRecognizing := false, recognitionRestartCount := 0,
              finalTranscript := "", interimTranscript := "" }, true)
  else (s, false)

/-- speech.js `stopRecognition`: always clears `isRecognizing` and the
ceiling timer; transcripts stay. -/
def stopRecognition (s : SpeechState) : SpeechState :=
  { s with isRecognizing := false, timeoutArmed := false }

/-- speech.js ceiling-timer callback (armed in `handleRecognitionStart`):
fires after 60 s and calls `stopRecognition` when still recognizing. -/
def recognitionTimeoutFire (s : SpeechState) : SpeechState :=
  if s.isRecognizing then stopRecognition s else { s with timeoutArmed := false }

/-- speech.js `getTranscription`: the externally visible transcript. -/
def getTranscription (s : SpeechState) : String :=
  s.finalTranscript ++ s.interimTranscript

/-- speech.js `resetTranscription`. -/
def resetTranscription (s : SpeechState) : SpeechState :=
  { s with finalTranscript := "", interimTranscript := "" }

/-- Events the speech module can receive: the four recognizer callbacks and
the module's exported entry points. -/
inductive SpeechEvent where
  | recStart
  | recResult (results : List RecResultItem)
  | recError (err : String)
  | recEnd (restartOk : Bool)
  | startCall (supported : Bool)
  | stopCall
  | timeoutFire
  | resetCall
  deriving Repr

def speechStep (s : SpeechState) (e : SpeechEvent) : SpeechState :=
  match e with
  | .recStart => handleRecognitionStart s
  | .recResult rs => handleRecognitionResult s rs
  | .recError err => handleRecognitionError s err
  | .recEnd ok => handleRecognitionEnd s ok
  | .startCall sup => (startRecognition s sup).1
  | .stopCall => stopRecognition s
  | .timeoutFire => recognitionTimeoutFire s
  | .resetCall => resetTranscription s

def runSpeech (evs : List SpeechEvent) : SpeechState :=
  evs.foldl speechStep initSpeech

lemma applyResult_count (s : SpeechState) (r : RecResultItem) :
    (applyResult s r).recognitionRestartCount = s.recognitionRestartCount := by
  unfold applyResult; split <;> rfl

lemma foldl_applyResult_count (rs : List RecResultItem) (s : SpeechState) :
    (rs.foldl applyResult s).recognitionRestartCount = s.recognitionRestartCount := by
  induction rs generalizing s with
  | nil => rfl
  | cons r rs ih => rw [List.foldl_cons, ih, applyResult_count]

lemma handleRecognitionResult_count (s : SpeechState) (rs : List RecResultItem) :
    (handleRecognitionResult s rs).recognitionRestartCount = s.recognitionRestartCount := by
  unfold handleRecognitionResult
  rw [foldl_applyResult_count]

lemma speechStep_count_le (s : SpeechState) (e : SpeechEvent)
    (h : s.recognitionRestartCount ≤ MAX_RESTART_ATTEMPTS) :
    (speechStep s e).recognitionRestartCount ≤ MAX_RESTART_ATTEMPTS := by
  cases e with
  | recStart => simp [speechStep, handleRecognitionStart, MAX_RESTART_ATTEMPTS]
  | recResult rs =>
      simpa [speechStep, handleRecognitionResult_count] using h
  | recError err => simpa [speechStep, handleRecognitionError] using h
  | recEnd ok =>
      simp only [speechStep, handleRecognitionEnd]
      split
      · rename_i hcond
        have hlt : s.recognitionRestartCount < MAX_RESTART_ATTEMPTS := by
          have := of_decide_eq_true (Bool.and_elim_right hcond)
          exact this
        split <;> simpa using hlt
      · simpa using h
  | startCall sup =>
      simp only [speechStep, startRecognition]
      split
      · simp [MAX_RESTART_ATTEMPTS]
      · simpa using h
  | stopCall => simpa [speechStep, stopRecognition] using h
  | timeoutFire =>
      simp only [speechStep, recognitionTimeoutFire]
      split <;> simpa [stopRecognition] using h
  | resetCall => simpa [speechStep, resetTranscription] using h

lemma runSpeech_count_le_aux (evs : List SpeechEvent) (s : SpeechState)
    (h : s.recognitionRestartCount ≤ MAX_RESTART_ATTEMPTS) :
    (evs.foldl speechStep s).recognitionRestartCount ≤ MAX_RESTART_ATTEMPTS := by
  induction evs generalizing s with
  | nil => simpa using h
  | cons e evs ih => exact ih (speechStep s e) (speechStep_count_le s e h)

/-- C1: over every sequence of recognizer events the restart counter never
exceeds `MAX_RESTART_ATTEMPTS = 3`; `handleRecognitionEnd` (the restart
handling) never modifies `finalTranscript` in any branch; and when the cap
is already met (counter at or above 3) the end handler makes the
accumulator idle while preserving the accumulated `finalTranscript`
verbatim. -/
theorem c1_restart_cap_and_final_preserved :
    (∀ evs : List SpeechEvent,
        (runSpeech evs).recognitionRestartCount ≤ MAX_RESTART_ATTEMPTS) ∧
    (∀ (s : SpeechState) (ok : Bool),
        (handleRecognitionEnd s ok).finalTranscript = s.finalTranscript) ∧
    (∀ (s : SpeechState) (ok : Bool),
        MAX_RESTART_ATTEMPTS ≤ s.recognitionRestartCount →
        (handleRecognitionEnd s ok).isRecognizing = false ∧
        (handleRecognitionEnd s ok).finalTranscript = s.finalTranscript) := by
  refine ⟨fun evs => runSpeech_count_le_aux evs initSpeech (by simp [initSpeech]), ?_, ?_⟩
  · intro s ok
    unfold handleRecognitionEnd
    split
    · split <;> rfl
    · rfl
  · intro s ok hge
    have hnlt : ¬ s.recognitionRestartCount < MAX_RESTART_ATTEMPTS := not_lt.mpr hge
    unfold handleRecognitionEnd
    rw [if_neg]
    · exact ⟨rfl, rfl⟩
    · simp [hnlt]

/-- Witness for C1 at a concrete state: counter already at the cap, a
transcript "hello world" accumulated; the end handler leaves the
accumulator idle with the transcript intact. -/
theorem c1_witness :
    MAX_RESTART_ATTEMPTS ≤ (3 : Nat) ∧
    (handleRecognitionEnd
        { isRecognizing := true, recognitionRestartCount := 3,
          finalTranscript := "hello world", interimTranscript := "",
          timeoutArmed := true } true).isRecognizing = false := by
  refine ⟨by decide, ?_⟩
  exact (c1_restart_cap_and_final_preserved.2.2
    { isRecognizing := true, recognitionRestartCount := 3,
      finalTranscript := "hello world", interimTranscript := "",
      timeoutArmed := true } true (by decide)).1

/-! ### Embedding of `interview.js` (Turn Coordinator / Session Connection)

Module globals `isProcessingResponse`, `isRecording`, the WebSocket's
readiness, the loading indicator and the insights-button visibility become
`CoordState` fields; the transcript and chunk state of the speech and
audio modules that `sendAudio` reads are carried alongside so that
`getTranscription` / `getRecordedAudioBase64` / `resetTranscription` can
be applied.  Calls into the UI, the socket and the audio player become
entries of an effect list. -/

/-- JavaScript truthiness of an optional string field: `undefined`, `null`
and the empty string are falsy. -/
def truthyS : Option String → Bool
  | none => false
  | some s => !(s == "")

/-- Parsed shape of an inbound WebSocket payload
(`{ role?, content?, audio?, interviewComplete? }`). -/
structure InboundMsg where
  role : Option String
  content : Option String
  audio : Option String
  interviewComplete : Bool
  deriving Repr, DecidableEq

/-- Outbound wire messages serialized by `websocket.send(JSON.stringify(...))`. -/
inductive WireMsg where
  | audioMsg (content transcription voiceStyle : String)
  | textMsg (content voiceStyle : String)
  deriving Repr, DecidableEq

/-- Observable calls the interview module makes on its collaborators. -/
inductive Effect where
  | sendMsg (m : WireMsg)
  | display (role content : String)
  | playAudioFx (b64 : String)
  | errorShown (msg : String)
  | logError
  | stopAudioFx
  | reconnect
  deriving Repr, DecidableEq

def isSendEffect : Effect → Bool
  | .sendMsg _ => true
  | _ => false

def isReconnectEffect : Effect → Bool
  | .reconnect => true
  | _ => false

structure CoordState where
  isProcessingResponse : Bool
  isRecording : Bool
  loadingVisible : Bool
  insightsVisible : Bool
  wsOpen : Bool
  finalTranscript : String
  interimTranscript : String
  chunks : List String
  deriving Repr, DecidableEq

def initCoord : CoordState :=
  { isProcessingResponse := false, isRecording := false, loadingVisible := false,
    insightsVisible := false, wsOpen := false,
    finalTranscript := "", interimTranscript := "", chunks := [] }

/-- ui.js `displayMessage`: defaults a falsy role to `"system"` and falsy
content to `"Empty message"`; `assistant`/`user`/`system` dispatch to their
renderers and any other role falls through to the system renderer. -/
def displayMessageFx (role content : Option String) : Effect :=
  let r := if truthyS role then role.getD "" else "system"
  let c := if truthyS content then content.getD "" else "Empty message"
  if r == "assistant" then .display "assistant" c
  else if r == "user" then .display "user" c
  else if r == "system" then .display "system" c
  else .display "system" c

/-- interview.js `handleWebSocketMessage`: `none` is a payload whose
`JSON.parse` threw (the catch block logs, hides the loading indicator and
clears `isProcessingResponse`); otherwise the role is defaulted to
`"system"` when falsy, the assistant/system/bare-content branches display
the message and clear the in-flight guard, and a truthy
`interviewComplete` reveals the insights button. -/
def handleWebSocketMessage (parsed : Option InboundMsg) (s : CoordState) :
    CoordState × List Effect :=
  match parsed with
  | none => ({ s with loadingVisible := false, isProcessingResponse := false }, [.logError])
  | some m =>
    let role := if truthyS m.role then m.role.getD "" else "system"
    let out :=
      if role == "assistant" then
        ({ s with isProcessingResponse := false, loadingVisible := false },
         [displayMessageFx (some "assistant") m.content] ++
           (if truthyS m.audio then [Effect.playAudioFx (m.audio.getD "")] else []))
      else if role == "system" then
        ({ s with isProcessingResponse := false, loadingVisible := false },
         [displayMessageFx (some "system")
            (some (if truthyS m.content then m.content.getD "" else "System message"))])
      else if truthyS m.content then
        ({ s with isProcessingResponse := false, loadingVisible := false },
         [displayMessageFx m.role m.content])
      else (s, [])
    if m.interviewComplete then ({ out.1 with insightsVisible := true }, out.2)
    else out

/-- audio.js `getRecordedAudioBase64`: `null` when no chunks were captured,
otherwise the chunks are concatenated into one blob and base64-encoded
(the opaque byte-level encoding is represented by concatenation). -/
def getRecordedAudioBase64 (chunks : List String) : Option String :=
  if chunks.isEmpty then none else some (String.join chunks)

/-- The sentinel placeholder text shown while no transcript exists. -/
def listeningPlaceholder : String := "[ Listening... ]"

/-- speech.js `getTranscription` as read through the coordinator's copy of
the speech module's transcript fields. -/
def getTranscriptionC (s : CoordState) : String :=
  s.finalTranscript ++ s.interimTranscript

/-- Executable model of JavaScript `String.prototype.trim`: removes
leading and trailing whitespace characters. -/
def jsTrim (s : String) : String :=
  String.mk (((s.data.dropWhile Char.isWhitespace).reverse.dropWhile Char.isWhitespace).reverse)

/-- interview.js `sendAudio`: rejected outright while `isProcessingResponse`;
otherwise sets the in-flight guard, stops considering itself recording,
shows the loading indicator, reads the encoded audio and the transcript,
aborts (clearing the guard) on an empty/placeholder transcript, displays
the user turn, and either sends a `type:"audio"` message (resetting the
transcription) when the socket is open or clears the guard, reports a lost
connection and attempts a single reconnect. -/
def sendAudio (s : CoordState) (voiceStyle : String) : CoordState × List Effect :=
  if s.isProcessingResponse then (s, [])
  else
    let s1 : CoordState :=
      { s with isProcessingResponse := true, isRecording := false, loadingVisible := true }
    let audioBase64 := getRecordedAudioBase64 s1.chunks
    let transcript := getTranscriptionC s1
    if transcript == "" || jsTrim transcript == listeningPlaceholder || jsTrim transcript == "" then
      ({ s1 with loadingVisible := false, isProcessingResponse := false },
       [.errorShown "No speech detected. Please try again."])
    else
      let fx1 : List Effect := [.display "user" transcript]
      if s1.wsOpen then
        ({ s1 with finalTranscript := "", interimTranscript := "" },
         fx1 ++ [.sendMsg (.audioMsg (audioBase64.getD "") transcript voiceStyle)])
      else
        ({ s1 with loadingVisible := false, isProcessingResponse := false },
         fx1 ++ [.errorShown "Connection lost. Please reload the page to reconnect.",
                 .reconnect])

/-- interview.js `handleTextSubmission`: ignores an all-whitespace input,
rejects while a response is in flight, otherwise sets the guard, shows
loading, displays the user text, stops current audio and either sends a
`type:"text"` message when the socket is open or clears the guard and
reports a lost connection (with no reconnect attempt). -/
def handleTextSubmission (s : CoordState) (text voiceStyle : String) :
    CoordState × List Effect :=
  let t := jsTrim text
  if t == "" then (s, [])
  else if s.isProcessingResponse then (s, [])
  else
    let s1 : CoordState := { s with isProcessingResponse := true, loadingVisible := true }
    let fx1 : List Effect := [.display "user" t, .stopAudioFx]
    if s1.wsOpen then
      (s1, fx1 ++ [.sendMsg (.textMsg t voiceStyle)])
    else
      ({ s1 with loadingVisible := false, isProcessingResponse := false },
       fx1 ++ [.errorShown "Connection lost. Please reload the page to reconnect."])

/-- interview.js start-recording click handler: rejects while recording or
while a response is in flight; otherwise awaits a stop of any previous
capture, stops recognition, marks recording, shows the listening
placeholder, starts capture (`micOk`: microphone acquired; chunks reset
either way) and recognition (`recogOk`: browser support; on success the
transcripts are reset), and on either failure rolls `isRecording` back and
reports. -/
def startRecordingClick (s : CoordState) (micOk recogOk : Bool) :
    CoordState × List Effect :=
  if s.isRecording || s.isProcessingResponse then (s, [])
  else
    let s1 : CoordState := { s with isRecording := true, chunks := [] }
    let s2 : CoordState :=
      if recogOk then { s1 with finalTranscript := "", interimTranscript := "" } else s1
    let fx1 : List Effect := [.display "user" listeningPlaceholder]
    let fx2 : List Effect :=
      fx1 ++ (if micOk then [] else
        [.errorShown "Error accessing microphone. Please ensure microphone access is enabled in your browser settings and try again."])
    if micOk && recogOk then (s2, fx2)
    else
      ({ s2 with isRecording := false },
       fx2 ++ [.errorShown "Failed to start recording. Please check microphone access and browser permissions."])

/-- interview.js stop-recording click handler: ignored when not recording;
otherwise stops recognition and capture (neither changes the fields
tracked here) and schedules `sendAudio`, which arrives as its own event. -/
def stopRecordingClick (s : CoordState) : CoordState × List Effect :=
  if s.isRecording then (s, []) else (s, [])

/-- A turn stops being in flight when the arriving message is classified
displayable (assistant/system role after defaulting, or truthy content) or
its parse failed — the branches of `handleWebSocketMessage` that clear the
in-flight guard. -/
def endsInFlight : Option InboundMsg → Bool
  | none => true
  | some m =>
    let role := if truthyS m.role then m.role.getD "" else "system"
    role == "assistant" || role == "system" || truthyS m.content

inductive CoordEvent where
  | submitAudio (voiceStyle : String)
  | submitText (text voiceStyle : String)
  | wsMessage (parsed : Option InboundMsg)
  | startClick (micOk recogOk : Bool)
  | stopClick
  | wsOpened
  | wsClosed
  deriving Repr

/-- One event-loop step of the coordinator, instrumented with the number of
turns currently in flight (sent and not yet answered). -/
def coordStep (sn : CoordState × Nat) (e : CoordEvent) : CoordState × Nat :=
  match e with
  | .submitAudio v =>
      ((sendAudio sn.1 v).1, sn.2 + (sendAudio sn.1 v).2.countP isSendEffect)
  | .submitText t v =>
      ((handleTextSubmission sn.1 t v).1,
        sn.2 + (handleTextSubmission sn.1 t v).2.countP isSendEffect)
  | .wsMessage p =>
      ((handleWebSocketMessage p sn.1).1, if endsInFlight p then 0 else sn.2)
  | .startClick micOk recogOk => ((startRecordingClick sn.1 micOk recogOk).1, sn.2)
  | .stopClick => ((stopRecordingClick sn.1).1, sn.2)
  | .wsOpened => ({ sn.1 with wsOpen := true }, sn.2)
  | .wsClosed => ({ sn.1 with wsOpen := false }, sn.2)

def runCoord (evs : List CoordEvent) : CoordState × Nat :=
  evs.foldl coordStep (initCoord, 0)

/-! ### Embedding of `audio.js` (Capture Buffer / Playback Negotiator)

The single mutable `mediaRecorder` variable hides a heap of recorder
objects: overwriting the variable does not deactivate the old hardware
handle.  `CaptureState.handles` therefore records the recording/inactive
status of every `MediaRecorder` ever created, and `current` is the index
the `mediaRecorder` variable points to.  `stopRecording` is awaited, so
its promise resolution (the underlying recorder's `stop` event) is part
of the same step. -/

structure CaptureState where
  handles : List Bool
  current : Option Nat
  chunks : List String
  deriving Repr, DecidableEq

def initCapture : CaptureState := { handles := [], current := none, chunks := [] }

/-- audio.js `stopRecording`: when the current recorder exists and is in
state `recording`, waits for its `stop` event (the handle becomes
inactive) before resolving; otherwise resolves immediately. -/
def stopRecording (s : CaptureState) : CaptureState :=
  match s.current with
  | some i => if s.handles.getD i false then { s with handles := s.handles.set i false } else s
  | none => s

/-- audio.js `startRecording`: first awaits `stopRecording()`, then resets
`audioChunks`; if microphone access is granted (`micOk`) it creates a new
`MediaRecorder` on the stream and starts it (a new active handle, and the
`mediaRecorder` variable now points at it), returning `true`; on a
`getUserMedia` failure it reports and returns `false`. -/
def startRecording (s : CaptureState) (micOk : Bool) : CaptureState × Bool :=
  let s1 := stopRecording s
  let s2 : CaptureState := { s1 with chunks := [] }
  if micOk then
    ({ s2 with handles := s2.handles ++ [true], current := some s2.handles.length }, true)
  else (s2, false)

/-- audio.js `ondataavailable`: appends the blob when its size is positive. -/
def onDataAvailable (s : CaptureState) (size : Nat) (chunk : String) : CaptureState :=
  if size > 0 then { s with chunks := s.chunks ++ [chunk] } else s

inductive CaptureOp where
  | start (micOk : Bool)
  | stop
  | dataAvailable (size : Nat) (chunk : String)
  deriving Repr

def captureStep (s : CaptureState) (op : CaptureOp) : CaptureState :=
  match op with
  | .start micOk => (startRecording s micOk).1
  | .stop => stopRecording s
  | .dataAvailable size chunk => onDataAvailable s size chunk

def runCapture (ops : List CaptureOp) : CaptureState :=
  ops.foldl captureStep initCapture

/-- audio.js `getRecordedAudioBase64` expressed on `CaptureState`. -/
def getRecordedAudioBase64A (s : CaptureState) : Option String :=
  getRecordedAudioBase64 s.chunks

/-- Stripping of the benign `//` artifact at the head of a base64 payload
in audio.js `playAudio`. -/
def cleanAudioBase64 (b : String) : String :=
  if b.startsWith "//" then b.drop 2 else b

/-- The fixed candidate list `formats` of audio.js `playAudio`. -/
def audioFormats : List (String × String) :=
  [("audio/mp3", "mp3"), ("audio/mpeg", "mp3"), ("audio/wav", "wav"),
   ("audio/x-wav", "wav"), ("audio/webm", "webm")]

/-- Outcome of the synchronous part of audio.js `playAudio`. -/
structure PlayResult where
  attempted : List String
  speakingAnim : Bool
  blobPayload : Option String
  deriving Repr, DecidableEq

/-- audio.js `playAudio`: returns early on a missing/blank payload; strips
the `//` artifact; `atob` may throw (`decodeOk = false`), landing in the
catch block which stops the speaking animation.  The format loop creates a
blob for a candidate, initiates playback, starts the speaking animation —
and then hits an unconditional `break`, so at most the head of
`audioFormats` is ever attempted. -/
def playAudio (audioBase64 : Option String) (decodeOk : Bool) (animIn : Bool) : PlayResult :=
  match audioBase64 with
  | none => { attempted := [], speakingAnim := animIn, blobPayload := none }
  | some b =>
    if jsTrim b == "" then { attempted := [], speakingAnim := animIn, blobPayload := none }
    else
      let clean := cleanAudioBase64 b
      if decodeOk then
        match audioFormats with
        | [] => { attempted := [], speakingAnim := animIn, blobPayload := some clean }
        | (mime, _) :: _ =>
            { attempted := [mime], speakingAnim := true, blobPayload := some clean }
      else
        { attempted := [], speakingAnim := false, blobPayload := none }

/-- audio.js `audioPlayer.onerror` closure for the candidate at `formatIdx`:
stops the speaking animation only when the failing candidate is
(identically) the last entry of `formats`; otherwise the animation state
is left as it was. -/
def onAudioError (formatIdx : Nat) (anim : Bool) : Bool :=
  if formatIdx == audioFormats.length - 1 then false else anim

/-! ### Basic lemmas about the coordinator functions -/

lemma sendAudio_reject (s : CoordState) (v : String) (h : s.isProcessingResponse = true) :
    sendAudio s v = (s, []) := by
  simp [sendAudio, h]

lemma handleTextSubmission_reject (s : CoordState) (t v : String)
    (h : s.isProcessingResponse = true) :
    handleTextSubmission s t v = (s, []) := by
  simp [handleTextSubmission, h]

lemma stopRecordingClick_id (s : CoordState) : stopRecordingClick s = (s, []) := by
  unfold stopRecordingClick; split <;> rfl

/-- C4: a payload whose parse fails is handled by the catch block: the error
is reported (logged) non-fatally, the loading indicator is hidden and the
in-flight guard `isProcessingResponse` is cleared, so the coordinator is
not left blocked. -/
theorem c4_parse_failure_clears_guard :
    ∀ s : CoordState,
      (handleWebSocketMessage none s).1.isProcessingResponse = false ∧
      (handleWebSocketMessage none s).1.loadingVisible = false ∧
      Effect.logError ∈ (handleWebSocketMessage none s).2 := by
  intro s
  refine ⟨rfl, rfl, ?_⟩
  simp [handleWebSocketMessage]

/-- Helper: the system renderer path of `displayMessageFx` with non-empty
content displays exactly that content. -/
lemma displayMessageFx_system (c : String) (hc : ¬ c = "") :
    displayMessageFx (some "system") (some c) = Effect.display "system" c := by
  have h1 : truthyS (some "system") = true := by decide
  have h2 : truthyS (some c) = true := by
    simp [truthyS, hc]
  simp [displayMessageFx, h1, h2]

/-- C9: a parseable inbound message lacking a role tag is defaulted to
`system` rather than rejected: it is displayed through the system renderer
(with content defaulted to "System message" when absent) and still clears
the in-flight guard. -/
theorem c9_missing_role_defaults_to_system :
    ∀ (s : CoordState) (m : InboundMsg), m.role = none →
      (handleWebSocketMessage (some m) s).2 =
        [Effect.display "system"
          (if truthyS m.content then m.content.getD "" else "System message")] ∧
      (handleWebSocketMessage (some m) s).1.isProcessingResponse = false := by
  intro s m hrole
  have hra : truthyS m.role = false := by rw [hrole]; rfl
  have hcne : ¬ (if truthyS m.content then m.content.getD "" else "System message") = "" := by
    cases hmc : m.content with
    | none => simp [truthyS]
    | some a =>
        by_cases ha : a = ""
        · simp [truthyS, ha]
        · simp [truthyS, ha]
  have hfx := displayMessageFx_system _ hcne
  have e1 : (("system" : String) == "assistant") = false := by decide
  have e2 : (("system" : String) == "system") = true := by decide
  simp only [handleWebSocketMessage, hra, Bool.false_eq_true, if_false, e1, e2, if_true]
  constructor
  · split <;> simp [hfx]
  · split <;> rfl

/-- Witness for C9: a message with no role and content "Hello" is displayed
as a system turn and the guard ends cleared. -/
theorem c9_witness :
    (InboundMsg.mk none (some "Hello") none false).role = none ∧
    (handleWebSocketMessage (some (InboundMsg.mk none (some "Hello") none false)) initCoord).2 =
      [Effect.display "system" "Hello"] :=
  ⟨rfl, by
    have h := (c9_missing_role_defaults_to_system initCoord
      (InboundMsg.mk none (some "Hello") none false) rfl).1
    simpa [truthyS] using h⟩

/-- C5: a processed audio submission whose accumulated transcript is empty,
whitespace-only or exactly the sentinel placeholder sends nothing at all
(in particular no `type:"audio"` message), hides the loading indicator,
clears the in-flight guard and the recording flag (back to Idle), and
reports the no-speech condition. -/
theorem c5_empty_transcript_never_sends :
    ∀ (s : CoordState) (v : String),
      s.isProcessingResponse = false →
      (getTranscriptionC s = "" ∨ jsTrim (getTranscriptionC s) = "" ∨
        getTranscriptionC s = listeningPlaceholder) →
      (sendAudio s v).2.countP isSendEffect = 0 ∧
      (sendAudio s v).1.isProcessingResponse = false ∧
      (sendAudio s v).1.isRecording = false ∧
      (sendAudio s v).1.loadingVisible = false ∧
      Effect.errorShown "No speech detected. Please try again." ∈ (sendAudio s v).2 := by
  intro s v hp ht
  have htr : getTranscriptionC { s with isProcessingResponse := true, isRecording := false, loadingVisible := true } = getTranscriptionC s := rfl
  have hcond : (getTranscriptionC s == "" ||
      jsTrim (getTranscriptionC s) == listeningPlaceholder ||
      jsTrim (getTranscriptionC s) == "") = true := by
    rcases ht with h | h | h
    · simp [h]
    · simp [h]
    · have : jsTrim (getTranscriptionC s) = listeningPlaceholder := by
        rw [h]; decide
      simp [this]
  simp only [sendAudio, hp, Bool.false_eq_true, if_false, htr, hcond, if_true]
  refine ⟨?_, ?_, ?_, ?_, ?_⟩ <;> decide

/-- Witness for C5: from the initial state (empty transcript) a submission
attempt sends nothing and ends with the guard cleared. -/
theorem c5_witness :
    initCoord.isProcessingResponse = false ∧
    (sendAudio initCoord "Nova").2.countP isSendEffect = 0 ∧
    (sendAudio initCoord "Nova").1.isProcessingResponse = false := by
  have h := c5_empty_transcript_never_sends initCoord "Nova" rfl (Or.inl rfl)
  exact ⟨rfl, h.1, h.2.1⟩

/-- C10: when the transcript is usable but no audio fragments were captured
(`chunks = []`, so encoding yields `null`), `sendAudio` still sends a
`type:"audio"` message whose `content` is the empty string and which
carries the transcription; the submission proceeds (guard stays set,
awaiting the reply). -/
theorem c10_empty_audio_payload_still_sent :
    ∀ (s : CoordState) (v : String),
      s.isProcessingResponse = false →
      s.chunks = [] →
      s.wsOpen = true →
      ¬ getTranscriptionC s = "" →
      ¬ jsTrim (getTranscriptionC s) = listeningPlaceholder →
      ¬ jsTrim (getTranscriptionC s) = "" →
      Effect.sendMsg (WireMsg.audioMsg "" (getTranscriptionC s) v) ∈ (sendAudio s v).2 ∧
      (sendAudio s v).1.isProcessingResponse = true := by
  intro s v hp hch hws h1 h2 h3
  obtain ⟨p, r, l, iv, w, f, it, ch⟩ := s
  simp only [getTranscriptionC] at h1 h2 h3 ⊢
  dsimp only at hp hch hws
  subst hp; subst hch; subst hws
  have hcond : ((f ++ it) == "" || jsTrim (f ++ it) == listeningPlaceholder ||
      jsTrim (f ++ it) == "") = false := by
    simp [h1, h2, h3]
  simp [sendAudio, getTranscriptionC, getRecordedAudioBase64, hcond]

/-- Witness for C10: open socket, transcript "hello", no chunks — the
outbound audio message has empty content and carries "hello". -/
theorem c10_witness :
    ({ initCoord with wsOpen := true, finalTranscript := "hello" } : CoordState).chunks = [] ∧
    Effect.sendMsg (WireMsg.audioMsg "" "hello" "Nova") ∈
      (sendAudio { initCoord with wsOpen := true, finalTranscript := "hello" } "Nova").2 := by
  refine ⟨rfl, ?_⟩
  have h := (c10_empty_audio_payload_still_sent
    { initCoord with wsOpen := true, finalTranscript := "hello" } "Nova"
    rfl rfl rfl (by decide) (by decide) (by decide)).1
  simpa [getTranscriptionC] using h

/-- Counterexample to C7: from the initial state (socket not open, nothing
in flight) a text submission "hello" reports the connection loss and
clears the guard but performs zero reconnect attempts — not the exactly
one the claim requires of every submission attempt, audio or text. -/
theorem c7_counterexample :
    initCoord.wsOpen = false ∧
    initCoord.isProcessingResponse = false ∧
    (handleTextSubmission initCoord "hello" "Nova").2.countP isReconnectEffect = 0 ∧
    Effect.errorShown "Connection lost. Please reload the page to reconnect." ∈
      (handleTextSubmission initCoord "hello" "Nova").2 := by
  refine ⟨rfl, rfl, ?_, ?_⟩ <;> decide

/-- C7 as amended: an audio submission attempted while the connection is
not open performs exactly one reconnect attempt, clears the in-flight
guard and shows the connection-lost report; a text submission in the same
situation performs no reconnect attempt while likewise failing the turn
back to Idle with the connection-lost report. -/
theorem c7_amended_reconnect_policy :
    (∀ (s : CoordState) (v : String),
       s.isProcessingResponse = false → s.wsOpen = false →
       ¬ getTranscriptionC s = "" →
       ¬ jsTrim (getTranscriptionC s) = listeningPlaceholder →
       ¬ jsTrim (getTranscriptionC s) = "" →
       (sendAudio s v).2.countP isReconnectEffect = 1 ∧
       (sendAudio s v).1.isProcessingResponse = false ∧
       Effect.errorShown "Connection lost. Please reload the page to reconnect." ∈
         (sendAudio s v).2) ∧
    (∀ (s : CoordState) (t v : String),
       s.isProcessingResponse = false → s.wsOpen = false → ¬ jsTrim t = "" →
       (handleTextSubmission s t v).2.countP isReconnectEffect = 0 ∧
       (handleTextSubmission s t v).1.isProcessingResponse = false ∧
       Effect.errorShown "Connection lost. Please reload the page to reconnect." ∈
         (handleTextSubmission s t v).2) := by
  constructor
  · intro s v hp hws h1 h2 h3
    obtain ⟨p, r, l, iv, w, f, it, ch⟩ := s
    simp only [getTranscriptionC] at h1 h2 h3
    dsimp only at hp hws
    subst hp; subst hws
    have hcond : ((f ++ it) == "" || jsTrim (f ++ it) == listeningPlaceholder ||
        jsTrim (f ++ it) == "") = false := by
      simp [h1, h2, h3]
    simp [sendAudio, getTranscriptionC, hcond, List.countP_cons, isReconnectEffect,
      List.countP_nil]
  · intro s t v hp hws ht
    obtain ⟨p, r, l, iv, w, f, it, ch⟩ := s
    dsimp only at hp hws
    subst hp; subst hws
    simp [handleTextSubmission, ht, List.countP_cons, isReconnectEffect, List.countP_nil]

/-- Witness for the amended C7: with transcript "hello" and a closed
socket, an audio submission performs exactly one reconnect attempt, and a
text submission performs none. -/
theorem c7_witness :
    (sendAudio { initCoord with finalTranscript := "hello" } "Nova").2.countP
        isReconnectEffect = 1 ∧
    (handleTextSubmission initCoord "hi" "Nova").2.countP isReconnectEffect = 0 :=
  ⟨(c7_amended_reconnect_policy.1 { initCoord with finalTranscript := "hello" } "Nova"
      rfl rfl (by decide) (by decide) (by decide)).1,
   (c7_amended_reconnect_policy.2 initCoord "hi" "Nova" rfl rfl (by decide)).1⟩

/-! ### Lemmas on what each coordinator function leaves untouched -/

lemma sendAudio_insights (s : CoordState) (v : String) :
    (sendAudio s v).1.insightsVisible = s.insightsVisible := by
  simp only [sendAudio]
  split
  · rfl
  · split
    · rfl
    · split <;> rfl

lemma handleTextSubmission_insights (s : CoordState) (t v : String) :
    (handleTextSubmission s t v).1.insightsVisible = s.insightsVisible := by
  simp only [handleTextSubmission]
  split
  · rfl
  · split
    · rfl
    · split <;> rfl

lemma startRecordingClick_insights (s : CoordState) (a b : Bool) :
    (startRecordingClick s a b).1.insightsVisible = s.insightsVisible := by
  simp only [startRecordingClick]
  split
  · rfl
  · split <;> split <;> rfl

lemma handleWebSocketMessage_insights (p : Option InboundMsg) (s : CoordState)
    (h : s.insightsVisible = true) :
    (handleWebSocketMessage p s).1.insightsVisible = true := by
  cases p with
  | none => simpa using h
  | some m =>
      simp only [handleWebSocketMessage]
      split
      · rfl
      · repeat' split
        all_goals simpa using h

lemma coordStep_insights (sn : CoordState × Nat) (e : CoordEvent)
    (h : sn.1.insightsVisible = true) :
    (coordStep sn e).1.insightsVisible = true := by
  cases e with
  | submitAudio v => simpa [coordStep, sendAudio_insights] using h
  | submitText t v => simpa [coordStep, handleTextSubmission_insights] using h
  | wsMessage p => exact handleWebSocketMessage_insights p sn.1 h
  | startClick a b => simpa [coordStep, startRecordingClick_insights] using h
  | stopClick => simpa [coordStep, stopRecordingClick_id] using h
  | wsOpened => simpa [coordStep] using h
  | wsClosed => simpa [coordStep] using h

/-- The completion-flagged reply the remote sends when the interview ends. -/
def c2CompleteMsg : InboundMsg :=
  { role := some "assistant", content := some "Thanks for your time!",
    audio := none, interviewComplete := true }

/-- Coordinator state right after the completion-flagged message arrived. -/
def c2AfterComplete : CoordState :=
  (handleWebSocketMessage (some c2CompleteMsg) { initCoord with wsOpen := true }).1

/-- Counterexample to C2: after a completion-flagged message has arrived
(insights button shown, coordinator otherwise idle), a click on the
start-recording control is accepted — `isRecording` becomes `true` and the
listening placeholder is displayed — because the start path checks only
`isRecording`/`isProcessingResponse` and keeps no session-complete latch;
the coordinator does not refuse later Turn submissions. -/
theorem c2_counterexample :
    c2AfterComplete.insightsVisible = true ∧
    c2AfterComplete.isRecording = false ∧
    c2AfterComplete.isProcessingResponse = false ∧
    (startRecordingClick c2AfterComplete true true).1.isRecording = true ∧
    Effect.display "user" listeningPlaceholder ∈
      (startRecordingClick c2AfterComplete true true).2 := by
  refine ⟨?_, ?_, ?_, ?_, ?_⟩ <;> decide

/-- C2 as amended: the insights-button visibility — the only completion
state the coordinator keeps — is set by any completion-flagged message and
stays set under every later coordinator event; but no session-complete
latch guards submissions: the start-recording path rejects an attempt only
while recording or while a response is in flight, so an idle coordinator
accepts a start-recording attempt even after completion. -/
theorem c2_amended_no_completion_latch :
    (∀ (m : InboundMsg) (s : CoordState), m.interviewComplete = true →
        (handleWebSocketMessage (some m) s).1.insightsVisible = true) ∧
    (∀ (sn : CoordState × Nat) (e : CoordEvent), sn.1.insightsVisible = true →
        (coordStep sn e).1.insightsVisible = true) ∧
    (∀ s : CoordState, s.isRecording = false → s.isProcessingResponse = false →
        (startRecordingClick s true true).1.isRecording = true) := by
  refine ⟨?_, coordStep_insights, ?_⟩
  · intro m s hm
    simp only [handleWebSocketMessage, hm, if_true]
  · intro s hr hp
    simp [startRecordingClick, hr, hp]

/-- Witness for the amended C2: the completion message sets the latch from
the initial state, and an idle coordinator still accepts recording. -/
theorem c2_witness :
    (handleWebSocketMessage (some c2CompleteMsg) initCoord).1.insightsVisible = true ∧
    (startRecordingClick initCoord true true).1.isRecording = true :=
  ⟨c2_amended_no_completion_latch.1 c2CompleteMsg initCoord rfl,
   c2_amended_no_completion_latch.2.2 initCoord rfl rfl⟩

/-! ### The single-turn-in-flight invariant (C3) -/

lemma sendAudio_spec (s : CoordState) (v : String) (h : s.isProcessingResponse = false) :
    ((sendAudio s v).2.countP isSendEffect = 0 ∧
      (sendAudio s v).1.isProcessingResponse = false) ∨
    ((sendAudio s v).2.countP isSendEffect = 1 ∧
      (sendAudio s v).1.isProcessingResponse = true) := by
  obtain ⟨p, r, l, iv, w, f, it, ch⟩ := s
  dsimp only at h
  subst h
  cases hc : ((f ++ it) == "" || jsTrim (f ++ it) == listeningPlaceholder ||
      jsTrim (f ++ it) == "") with
  | true =>
      left
      constructor <;> simp [sendAudio, getTranscriptionC, hc, isSendEffect]
  | false =>
      cases hw : w with
      | true =>
          right
          constructor <;>
            simp [sendAudio, getTranscriptionC, hc, isSendEffect, List.countP_cons,
              List.countP_nil]
      | false =>
          left
          constructor <;>
            simp [sendAudio, getTranscriptionC, hc, isSendEffect, List.countP_cons,
              List.countP_nil]

lemma handleTextSubmission_spec (s : CoordState) (t v : String)
    (h : s.isProcessingResponse = false) :
    ((handleTextSubmission s t v).2.countP isSendEffect = 0 ∧
      (handleTextSubmission s t v).1.isProcessingResponse = false) ∨
    ((handleTextSubmission s t v).2.countP isSendEffect = 1 ∧
      (handleTextSubmission s t v).1.isProcessingResponse = true) := by
  obtain ⟨p, r, l, iv, w, f, it, ch⟩ := s
  dsimp only at h
  subst h
  cases he : (jsTrim t == "") with
  | true =>
      left
      constructor <;> simp [handleTextSubmission, he, isSendEffect]
  | false =>
      cases hw : w with
      | true =>
          right
          constructor <;>
            simp [handleTextSubmission, he, isSendEffect, List.countP_cons, List.countP_nil]
      | false =>
          left
          constructor <;>
            simp [handleTextSubmission, he, isSendEffect, List.countP_cons, List.countP_nil]

lemma startRecordingClick_guard (s : CoordState) (a b : Bool) :
    (startRecordingClick s a b).1.isProcessingResponse = s.isProcessingResponse := by
  simp only [startRecordingClick]
  split
  · rfl
  · split <;> split <;> rfl

lemma handleWebSocketMessage_guard_not_ends (p : Option InboundMsg) (s : CoordState)
    (h : endsInFlight p = false) :
    (handleWebSocketMessage p s).1.isProcessingResponse = s.isProcessingResponse := by
  cases p with
  | none => simp [endsInFlight] at h
  | some m =>
      simp only [endsInFlight, Bool.or_eq_false_iff] at h
      obtain ⟨⟨h1, h2⟩, h3⟩ := h
      simp only [handleWebSocketMessage, h1, h2, h3, Bool.false_eq_true, if_false]
      split <;> rfl

/-- The instrumentation invariant: never more than one turn in flight, and
none at all unless the in-flight guard is set. -/
def CoordInv (sn : CoordState × Nat) : Prop :=
  sn.2 ≤ 1 ∧ (sn.1.isProcessingResponse = false → sn.2 = 0)

lemma coordStep_inv (sn : CoordState × Nat) (e : CoordEvent) (h : CoordInv sn) :
    CoordInv (coordStep sn e) := by
  obtain ⟨h1, h2⟩ := h
  cases e with
  | submitAudio v =>
      cases hp : sn.1.isProcessingResponse with
      | true =>
          simp only [coordStep, sendAudio_reject sn.1 v hp]
          exact ⟨by simpa [List.countP_nil] using h1,
            fun hf => by simp [List.countP_nil, h2 (by simpa [sendAudio_reject sn.1 v hp] using hf)]⟩
      | false =>
          have hn : sn.2 = 0 := h2 hp
          rcases sendAudio_spec sn.1 v hp with ⟨hc, hg⟩ | ⟨hc, hg⟩
          · exact ⟨by simp [coordStep, hc, hn], fun _ => by simp [coordStep, hc, hn]⟩
          · refine ⟨by simp [coordStep, hc, hn], fun hf => ?_⟩
            rw [coordStep] at hf ⊢
            simp only [hg] at hf
            cases hf
  | submitText t v =>
      cases hp : sn.1.isProcessingResponse with
      | true =>
          simp only [coordStep, handleTextSubmission_reject sn.1 t v hp]
          exact ⟨by simpa [List.countP_nil] using h1,
            fun hf => by
              simp [List.countP_nil, h2 (by simpa [handleTextSubmission_reject sn.1 t v hp] using hf)]⟩
      | false =>
          have hn : sn.2 = 0 := h2 hp
          rcases handleTextSubmission_spec sn.1 t v hp with ⟨hc, hg⟩ | ⟨hc, hg⟩
          · exact ⟨by simp [coordStep, hc, hn], fun _ => by simp [coordStep, hc, hn]⟩
          · refine ⟨by simp [coordStep, hc, hn], fun hf => ?_⟩
            rw [coordStep] at hf ⊢
            simp only [hg] at hf
            cases hf
  | wsMessage p =>
      cases hE : endsInFlight p with
      | true => exact ⟨by simp [coordStep, hE], fun _ => by simp [coordStep, hE]⟩
      | false =>
          refine ⟨by simpa [coordStep, hE] using h1, fun hf => ?_⟩
          rw [coordStep] at hf
          simp only [hE, Bool.false_eq_true, if_false] at hf
          rw [handleWebSocketMessage_guard_not_ends p sn.1 hE] at hf
          simpa [coordStep, hE] using h2 hf
  | startClick a b =>
      refine ⟨by simpa [coordStep] using h1, fun hf => ?_⟩
      rw [coordStep] at hf
      rw [startRecordingClick_guard] at hf
      simpa [coordStep] using h2 hf
  | stopClick =>
      refine ⟨by simpa [coordStep, stopRecordingClick_id] using h1, fun hf => ?_⟩
      rw [coordStep] at hf
      rw [stopRecordingClick_id] at hf
      simpa [coordStep, stopRecordingClick_id] using h2 hf
  | wsOpened =>
      exact ⟨by simpa [coordStep] using h1, fun hf => by simpa [coordStep] using h2 (by simpa [coordStep] using hf)⟩
  | wsClosed =>
      exact ⟨by simpa [coordStep] using h1, fun hf => by simpa [coordStep] using h2 (by simpa [coordStep] using hf)⟩

lemma runCoord_inv_aux (evs : List CoordEvent) (sn : CoordState × Nat) (h : CoordInv sn) :
    CoordInv (evs.foldl coordStep sn) := by
  induction evs generalizing sn with
  | nil => simpa using h
  | cons e evs ih => exact ih (coordStep sn e) (coordStep_inv sn e h)

/-- C3: for every interleaving of coordinator events (audio submissions,
text submissions, inbound messages, recording clicks, connection changes)
at most one turn is ever in flight; and a submission — audio or text —
attempted while the in-flight guard is set is rejected immediately, with
no state change and no effect (in particular nothing is queued). -/
theorem c3_at_most_one_in_flight :
    (∀ evs : List CoordEvent, (runCoord evs).2 ≤ 1) ∧
    (∀ (s : CoordState) (v : String), s.isProcessingResponse = true →
        sendAudio s v = (s, [])) ∧
    (∀ (s : CoordState) (t v : String), s.isProcessingResponse = true →
        handleTextSubmission s t v = (s, [])) := by
  refine ⟨fun evs => ?_, sendAudio_reject, handleTextSubmission_reject⟩
  exact (runCoord_inv_aux evs (initCoord, 0) ⟨by decide, fun _ => rfl⟩).1

/-- Witness for C3: a run that submits a text turn and immediately tries a
second text and an audio submission keeps at most one turn in flight, and
the guarded rejections apply at a concrete busy state. -/
theorem c3_witness :
    (runCoord [CoordEvent.wsOpened, CoordEvent.submitText "hi" "Nova",
        CoordEvent.submitText "again" "Nova", CoordEvent.submitAudio "Nova"]).2 ≤ 1 ∧
    sendAudio { initCoord with isProcessingResponse := true } "Nova" =
      ({ initCoord with isProcessingResponse := true }, []) ∧
    handleTextSubmission { initCoord with isProcessingResponse := true } "hi" "Nova" =
      ({ initCoord with isProcessingResponse := true }, []) :=
  ⟨c3_at_most_one_in_flight.1 _,
   c3_at_most_one_in_flight.2.1 { initCoord with isProcessingResponse := true } "Nova" rfl,
   c3_at_most_one_in_flight.2.2 { initCoord with isProcessingResponse := true } "hi" "Nova" rfl⟩

/-! ### No two simultaneously-active recorder handles (C8) -/

lemma getD_set_false (l : List Bool) (i j : Nat) :
    (l.set i false).getD j false = (if i = j then false else l.getD j false) := by
  induction l generalizing i j with
  | nil => simp [List.set]
  | cons a l ih =>
      cases i with
      | zero =>
          cases j with
          | zero => simp
          | succ j => simp
      | succ i =>
          cases j with
          | zero => simp
          | succ j => simpa using ih i j

/-- Every handle can only be active if the `mediaRecorder` variable still
points at it. -/
def ActiveImpliesCurrent (s : CaptureState) : Prop :=
  ∀ j : Nat, s.handles.getD j false = true → s.current = some j

lemma stopRecording_current_inactive (s : CaptureState) (i : Nat)
    (h : s.current = some i) :
    (stopRecording s).handles.getD i false = false := by
  simp only [stopRecording, h]
  split
  · rw [getD_set_false]; simp
  · rename_i hg
    simpa using hg

lemma stopRecording_no_active (s : CaptureState) (h : ActiveImpliesCurrent s) (j : Nat) :
    (stopRecording s).handles.getD j false = false := by
  cases hcur : s.current with
  | none =>
      simp only [stopRecording, hcur]
      cases hg : s.handles.getD j false with
      | false => rfl
      | true =>
          have hj := h j hg
          rw [hcur] at hj
          cases hj
  | some i =>
      simp only [stopRecording, hcur]
      split
      · rename_i hg
        rw [getD_set_false]
        split
        · rfl
        · rename_i hne
          cases hg2 : s.handles.getD j false with
          | false => rfl
          | true =>
              have hj := h j hg2
              rw [hcur] at hj
              injection hj with hij
              exact absurd hij hne
      · rename_i hg
        cases hg2 : s.handles.getD j false with
        | false => rfl
        | true =>
            have hj := h j hg2
            rw [hcur] at hj
            injection hj with hij
            subst hij
            exact absurd hg2 hg

lemma stopRecording_length (s : CaptureState) :
    (stopRecording s).handles.length = s.handles.length := by
  cases hcur : s.current with
  | none => simp only [stopRecording, hcur]
  | some i =>
      simp only [stopRecording, hcur]
      split
      · simp
      · rfl

lemma onDataAvailable_handles (s : CaptureState) (size : Nat) (chunk : String) :
    (onDataAvailable s size chunk).handles = s.handles ∧
    (onDataAvailable s size chunk).current = s.current := by
  simp only [onDataAvailable]
  split <;> exact ⟨rfl, rfl⟩

lemma captureStep_inv (s : CaptureState) (op : CaptureOp) (h : ActiveImpliesCurrent s) :
    ActiveImpliesCurrent (captureStep s op) := by
  cases op with
  | stop =>
      intro j hj
      rw [show captureStep s CaptureOp.stop = stopRecording s from rfl] at hj
      rw [stopRecording_no_active s h j] at hj
      cases hj
  | dataAvailable size chunk =>
      intro j hj
      have he := onDataAvailable_handles s size chunk
      rw [show captureStep s (CaptureOp.dataAvailable size chunk) = onDataAvailable s size chunk from rfl] at hj ⊢
      rw [he.1] at hj
      rw [he.2]
      exact h j hj
  | start micOk =>
      intro j hj
      simp only [captureStep, startRecording] at hj ⊢
      cases micOk with
      | false =>
          simp only [Bool.false_eq_true, if_false] at hj ⊢
          rw [stopRecording_no_active s h j] at hj
          cases hj
      | true =>
          simp only [if_true] at hj ⊢
          rcases Nat.lt_trichotomy j (stopRecording s).handles.length with hlt | heq | hgt
          · rw [List.getD_append _ _ _ _ hlt] at hj
            rw [stopRecording_no_active s h j] at hj
            cases hj
          · exact congrArg some heq.symm
          · rw [List.getD_append_right _ _ _ _ (Nat.le_of_lt hgt)] at hj
            rw [List.getD_eq_default] at hj
            · cases hj
            · simpa using Nat.succ_le_of_lt (Nat.sub_pos_of_lt hgt)

lemma runCapture_inv (ops : List CaptureOp) : ActiveImpliesCurrent (runCapture ops) := by
  have haux : ∀ (l : List CaptureOp) (s : CaptureState), ActiveImpliesCurrent s →
      ActiveImpliesCurrent (l.foldl captureStep s) := by
    intro l
    induction l with
    | nil => intro s hs; simpa using hs
    | cons op l ih => intro s hs; exact ih (captureStep s op) (captureStep_inv s op hs)
  refine haux ops initCapture ?_
  intro j hj
  simp [initCapture, List.getD] at hj

/-- C8: over every sequence of capture operations at most one hardware
recorder handle is active at a time (any two active indices coincide); and
`startRecording` fully stops the prior current capture before the new
recorder handle is created — the previously current handle is inactive in
the post-state. -/
theorem c8_never_two_active_recorders :
    (∀ (ops : List CaptureOp) (i j : Nat),
        (runCapture ops).handles.getD i false = true →
        (runCapture ops).handles.getD j false = true → i = j) ∧
    (∀ (s : CaptureState) (i : Nat) (micOk : Bool),
        s.current = some i → i < s.handles.length →
        (startRecording s micOk).1.handles.getD i false = false) := by
  constructor
  · intro ops i j hi hj
    have h := runCapture_inv ops
    have h1 := h i hi
    have h2 := h j hj
    rw [h1] at h2
    injection h2
  · intro s i micOk hc hlen
    simp only [startRecording]
    cases micOk with
    | false =>
        simpa using stopRecording_current_inactive s i hc
    | true =>
        simp only [if_true]
        have hlen' : i < (stopRecording s).handles.length := by
          rw [stopRecording_length]; exact hlen
        show ((stopRecording s).handles ++ [true]).getD i false = false
        rw [List.getD_append _ _ _ _ hlen']
        exact stopRecording_current_inactive s i hc

/-- Witness for C8: one successful start yields exactly the single active
handle 0, and starting again from that state deactivates it first. -/
theorem c8_witness :
    (runCapture [CaptureOp.start true]).handles.getD 0 false = true ∧
    (0 : Nat) = 0 ∧
    (startRecording (runCapture [CaptureOp.start true]) true).1.handles.getD 0 false = false :=
  ⟨by decide,
   c8_never_two_active_recorders.1 [CaptureOp.start true] 0 0 (by decide) (by decide),
   c8_never_two_active_recorders.2 (runCapture [CaptureOp.start true]) 0 true
     (by decide) (by decide)⟩

/-- C6 (code defect evidence): `playAudio` on a non-empty, decodable
payload initiates playback for the head candidate `audio/mp3` only — the
format loop breaks unconditionally after the first iteration although five
candidates are declared and the code's own comments promise to "try
multiple formats if the first one fails" — and when that one playback
fails, the error callback (whose captured candidate index 0 is not the
last index 4) leaves the speaking-animation state on instead of clearing
it. -/
theorem c6_only_first_format_attempted :
    audioFormats.length = 5 ∧
    (playAudio (some "QUJDRA") true true).attempted = ["audio/mp3"] ∧
    (playAudio (some "QUJDRA") true true).speakingAnim = true ∧
    onAudioError 0 true = true := by
  refine ⟨rfl, ?_, ?_, by decide⟩ <;> decide
